import Mathlib

/-!
Shallow embedding of the session-connection layer of the repository:

* `src/unnamed/part_000` — the `SessionConnection` class and the private
  registry helpers (`connectTo`, `createSession`, `startNew`,
  `updateRunningSessions`, ...);
* `src/packages/services/src/session/restapi.ts` — the REST helpers, of
  which `shutdownSession` is modelled here.

Conventions of the embedding:

* TypeScript `null`/`undefined` values are `Option.none`.
* A JavaScript exception thrown inside a method is modelled explicitly:
  effectful methods on a connection return a `StepResult` that is either
  `ok` (final state, emitted events) or `thrown` (error message, the state
  at the moment of the throw — earlier field mutations stay applied, as
  they do on a JS heap object — and events emitted before the throw).
* Network calls are suspended at an oracle parameter: the caller supplies
  the transport outcome (`Except String IModel`) that
  `restapi.updateSession` / `restapi.startSession` would have produced, so
  the functions stay pure and executable.
* Signals: emitting a signal is recorded as an `Ev` value in the returned
  event list, in emission order. The five kernel-message proxy streams are
  not modelled (no claim mentions them), and `Signal.clearData` has no
  state in this embedding. The kernel connector is modelled as an optional
  function `KernelModel → KernelHandle` (the `serverSettings` argument the
  source also passes to it carries no information the claims need).
-/

/-- Wire form of a kernel reference: `{ id: string, name: string }`. -/
structure KernelModel where
  id : String
  name : String
deriving DecidableEq, Repr

/-- Client-side kernel-connection handle. The source only reads `id` and
`name` from it and calls `dispose()`; disposal mutates the handle in
place, which the `disposed` flag records. -/
structure KernelHandle where
  id : String
  name : String
  disposed : Bool
deriving DecidableEq, Repr

/-- Record type `Session.IModel`: the validated session record
`{ id, path, type, name, kernel }` as received from the server. -/
structure IModel where
  id : String
  path : String
  type : String
  name : String
  kernel : Option KernelModel
deriving DecidableEq, Repr

/-- Options type `Session.IOptions` as consumed by the `SessionConnection` constructor
and `Private.startNew`. Optional fields are `Option`s; `path` is an
`Option` because `startNew` explicitly tests `options.path === undefined`. -/
structure IOptions where
  path : Option String
  type : Option String
  name : Option String
  connectToKernel : Option (KernelModel → KernelHandle)

/-- Field names carried by the `propertyChanged` signal. -/
inductive PropField where
  | name
  | type
  | path
deriving DecidableEq, Repr

/-- An observable signal emission of a `SessionConnection`. -/
inductive Ev where
  | kernelChanged (oldValue newValue : Option KernelHandle)
  | propertyChanged (field : PropField)
  | disposedSig
deriving DecidableEq, Repr

/-- State of a `SessionConnection` instance: the private fields
`_id, _path, _name, _type, _kernel, _isDisposed, _updating,
_connectToKernel` of the class, in source declaration order. -/
structure SessionConnection where
  id : String
  path : String
  name : String
  type : String
  kernel : Option KernelHandle
  isDisposed : Bool
  updating : Bool
  connectToKernel : Option (KernelModel → KernelHandle)

/-- Outcome of an effectful method on a connection: normal return, or a
thrown JS exception with the state at the throw point. The event list
holds the signals emitted before returning (resp. before the throw). -/
inductive StepResult where
  | ok (s : SessionConnection) (evs : List Ev)
  | thrown (msg : String) (s : SessionConnection) (evs : List Ev)

/-- JavaScript `x || d` on an optional string: `undefined` and the empty
string (both falsy) select the default. Used for `options.type || "file"`
and `data.message || ...`. -/
def jsStringOr (x : Option String) (d : String) : String :=
  match x with
  | none => d
  | some s => if s = "" then d else s

/-- Effect of `kernel.dispose()` as observed through a retained reference: the
handle object is marked disposed in place. -/
def markDisposed (k : KernelHandle) : KernelHandle :=
  { k with disposed := true }

/-- The `model` getter. Reading it dereferences `this.kernel`
(`this.kernel.id` / `this.kernel.name`), so a null kernel makes the read
throw, modelled as `none`. -/
def SessionConnection.model (s : SessionConnection) : Option IModel :=
  match s.kernel with
  | none => none
  | some k => some ⟨s.id, s.path, s.type, s.name, some ⟨k.id, k.name⟩⟩

/-- Method `setupKernel(model)`: null model clears the kernel field; otherwise
the injected connector builds the new handle (and the source wires the
proxy signals, which carry no state here). Calling an absent
(`undefined`) connector throws. -/
def SessionConnection.setupKernel (s : SessionConnection) (m : Option KernelModel) :
    Except String SessionConnection :=
  match m with
  | none => .ok { s with kernel := none }
  | some km =>
    match s.connectToKernel with
    | none => .error "TypeError: this._connectToKernel is not a function"
    | some f => .ok { s with kernel := some (f km) }

/-- The `SessionConnection` constructor: stores the options (with the
JS-falsy defaults `options.type || "file"` and `options.name || ""`) and
runs `setupKernel(model)`. A throw inside the constructor means no object
is produced. Every modelled call site passes a defined `options.path`, so
the `undefined` case of `path` defaults harmlessly. -/
def SessionConnection.construct (options : IOptions) (id : String)
    (model : Option KernelModel) : Except String SessionConnection :=
  let s0 : SessionConnection :=
    { id := id
      path := options.path.getD ""
      name := options.name.getD ""
      type := jsStringOr options.type "file"
      kernel := none
      isDisposed := false
      updating := false
      connectToKernel := options.connectToKernel }
  s0.setupKernel model

/-- The `clone()` method: reads `this.kernel.id` / `this.kernel.name`
(throws on a null kernel) and re-runs the constructor with the current
fields. -/
def SessionConnection.clone (s : SessionConnection) : Except String SessionConnection :=
  match s.kernel with
  | none => .error "TypeError: this.kernel is null"
  | some k =>
    SessionConnection.construct
      { path := some s.path
        type := some s.type
        name := some s.name
        connectToKernel := s.connectToKernel }
      s.id (some ⟨k.id, k.name⟩)

/-- The kernel-identity-change test of `update` (lines 190–196): old null
with new non-null, old non-null with new null, or both non-null with
differing ids. -/
def kernelIdChanged (k : Option KernelHandle) (km : Option KernelModel) : Bool :=
  match k, km with
  | none, none => false
  | none, some _ => true
  | some _, none => true
  | some a, some b => a.id != b.id

/-- Method `_handleModelChange(oldModel)`: one `propertyChanged` emission per
field whose value differs from the pre-update snapshot, in source order
name, type, path. -/
def handleModelChange (oldModel : IModel) (s : SessionConnection) : List Ev :=
  (if oldModel.name != s.name then [Ev.propertyChanged PropField.name] else []) ++
    (if oldModel.type != s.type then [Ev.propertyChanged PropField.type] else []) ++
      (if oldModel.path != s.path then [Ev.propertyChanged PropField.path] else [])

/-- The `update(model)` method. An in-flight PATCH (`_updating`) makes it
a silent no-op. Otherwise it snapshots `this.model` (throwing on a null
kernel), overwrites `path`/`name`/`type`, swaps the kernel when the
identity changed (disposing the old handle first, then `setupKernel`,
then a `kernelChanged` emission), and finally runs `_handleModelChange`. -/
def SessionConnection.update (s : SessionConnection) (m : IModel) : StepResult :=
  if s.updating then .ok s []
  else
    match s.model with
    | none => .thrown "TypeError: this.kernel is null" s []
    | some oldModel =>
      let s1 : SessionConnection := { s with path := m.path, name := m.name, type := m.type }
      if kernelIdChanged s1.kernel m.kernel then
        let s2 : SessionConnection := { s1 with kernel := s1.kernel.map markDisposed }
        match s2.setupKernel m.kernel with
        | .error msg => .thrown msg s2 []
        | .ok s3 => .ok s3 (Ev.kernelChanged s2.kernel s3.kernel :: handleModelChange oldModel s3)
      else .ok s1 (handleModelChange oldModel s1)

/-- The `dispose()` method: idempotent; sets `_isDisposed`, emits the
disposed signal, then calls `this._kernel.dispose()` — which throws when
the kernel is null, after the flag was already set and the signal already
emitted. -/
def SessionConnection.dispose (s : SessionConnection) : StepResult :=
  if s.isDisposed then .ok s []
  else
    let s1 : SessionConnection := { s with isDisposed := true }
    match s1.kernel with
    | none => .thrown "TypeError: this.kernel is null" s1 [Ev.disposedSig]
    | some k => .ok { s1 with kernel := some (markDisposed k) } [Ev.disposedSig]

/-- The private `_patch(body)` method: sets `_updating`, awaits
`restapi.updateSession` (the oracle argument stands for that round trip),
and clears `_updating` in a `finally` on every exit path. The returned
record is only returned — `_patch` never feeds it into `update`. -/
def SessionConnection.patch (s : SessionConnection)
    (serverResult : Except String IModel) : Except String IModel × SessionConnection :=
  let s1 : SessionConnection := { s with updating := true }
  match serverResult with
  | .ok m => (.ok m, { s1 with updating := false })
  | .error e => (.error e, { s1 with updating := false })

/-- Method `setPath(path)`: throws when disposed, otherwise serializes
`{ path }` and awaits `_patch`, discarding the returned record. -/
def SessionConnection.setPath (s : SessionConnection) (path : String)
    (serverResult : Except String IModel) : Except String Unit × SessionConnection :=
  if s.isDisposed then (.error "Session is disposed", s)
  else
    match s.patch serverResult with
    | (.ok _, s2) => (.ok (), s2)
    | (.error e, s2) => (.error e, s2)

/-- Method `setName(name)`: same shape as `setPath` with body `{ name }`. -/
def SessionConnection.setName (s : SessionConnection) (name : String)
    (serverResult : Except String IModel) : Except String Unit × SessionConnection :=
  if s.isDisposed then (.error "Session is disposed", s)
  else
    match s.patch serverResult with
    | (.ok _, s2) => (.ok (), s2)
    | (.error e, s2) => (.error e, s2)

/-- Method `setType(type)`: same shape as `setPath` with body `{ type }`. -/
def SessionConnection.setType (s : SessionConnection) (type : String)
    (serverResult : Except String IModel) : Except String Unit × SessionConnection :=
  if s.isDisposed then (.error "Session is disposed", s)
  else
    match s.patch serverResult with
    | (.ok _, s2) => (.ok (), s2)
    | (.error e, s2) => (.error e, s2)

/-- The partial kernel model `changeKernel` receives as its request body. -/
structure KernelRequest where
  name : Option String
  id : Option String
deriving DecidableEq, Repr

/-- Method `changeKernel(options)`: throws when disposed; calls
`this.kernel.dispose()` eagerly (throwing when the kernel is null, and
leaving `_kernel` aimed at the now-disposed handle otherwise), then
awaits `_patch` and returns `this.kernel` — whatever `_kernel` holds at
that point. -/
def SessionConnection.changeKernel (s : SessionConnection)
    (options : KernelRequest) (serverResult : Except String IModel) :
    Except String (Option KernelHandle) × SessionConnection :=
  if s.isDisposed then (.error "Session is disposed", s)
  else
    match s.kernel with
    | none => (.error "TypeError: this.kernel is null", s)
    | some k =>
      let s1 : SessionConnection := { s with kernel := some (markDisposed k) }
      match s1.patch serverResult with
      | (.ok _, s2) => (.ok s2.kernel, s2)
      | (.error e, s2) => (.error e, s2)

/-- Function `Private.createSession(model, settings)`: runs the constructor on the
record's fields. The options object it builds carries no
`connectToKernel` entry, so the connector field is `undefined`. -/
def createSession (model : IModel) : Except String SessionConnection :=
  SessionConnection.construct
    { path := some model.path
      type := some model.type
      name := some model.name
      connectToKernel := none }
    model.id model.kernel

/-- Function `Private.connectTo(model, settings)`: a tracked connection with the
same id is cloned; a cache miss goes through `createSession`. The
tracked set for the endpoint is passed in explicitly (the source reads it
from the module-level `runningSessions` map keyed by `baseUrl`). -/
def connectTo (model : IModel) (running : List SessionConnection) :
    Except String SessionConnection :=
  match running.find? (fun c => c.id == model.id) with
  | some session => session.clone
  | none => createSession model

/-- Function `Private.startNew(options)`: rejects when `options.path` is
`undefined` (and only then), otherwise awaits `restapi.startSession` —
represented by the `serverResult` oracle — and wraps the returned record
via `createSession`. -/
def startNew (options : IOptions) (serverResult : Except String IModel) :
    Except String SessionConnection :=
  if options.path = none then .error "Must specify a path"
  else
    match serverResult with
    | .error e => .error e
    | .ok model => createSession model

/-- Outcome of a loop over tracked connections: the reconciled list, or a
JS exception together with the heap state of the list at the abort. -/
inductive StepListResult where
  | ok (running : List SessionConnection)
  | thrown (msg : String) (running : List SessionConnection)

/-- One iteration of the `each` loop of `Private.updateRunningSessions`:
`find` over the records calls `update` on the first id match; an
unmatched, not-yet-disposed connection is disposed. -/
def reconcileOne (sessions : List IModel) (c : SessionConnection) : StepResult :=
  match sessions.find? (fun sId => c.id == sId.id) with
  | some m => c.update m
  | none => if c.isDisposed then .ok c [] else c.dispose

/-- Function `Private.updateRunningSessions(sessions, baseUrl)`: iterates over the
`running.slice()` snapshot (here: the input list), reconciling each
tracked connection. A JS exception inside an iteration aborts the loop,
leaving the earlier connections reconciled and the later ones untouched;
`thrown` carries that heap state. The source returns its `sessions`
argument; the embedding returns the reconciled connections, which is the
observable effect. -/
def updateRunningSessions (sessions : List IModel) :
    List SessionConnection → StepListResult
  | [] => .ok []
  | c :: rest =>
    match reconcileOne sessions c with
    | .thrown msg c2 _ => .thrown msg (c2 :: rest)
    | .ok c2 _ =>
      match updateRunningSessions sessions rest with
      | .thrown msg rest2 => .thrown msg (c2 :: rest2)
      | .ok rest2 => .ok (c2 :: rest2)

/-- Function `Private.updateFromServer(model, baseUrl)`: the single-record
variant — updates every tracked connection whose id matches, disposes
nothing. -/
def updateFromServer (model : IModel) :
    List SessionConnection → StepListResult
  | [] => .ok []
  | c :: rest =>
    match (if c.id == model.id then c.update model else .ok c []) with
    | .thrown msg c2 _ => .thrown msg (c2 :: rest)
    | .ok c2 _ =>
      match updateFromServer model rest with
      | .thrown msg rest2 => .thrown msg (c2 :: rest2)
      | .ok rest2 => .ok (c2 :: rest2)

/-- The slice of an HTTP response that `shutdownSession` inspects: the
status code, and the `message` field of the parsed JSON body (read only
in the 404 branch; `none` when the body has no such field). -/
structure HttpResponse where
  status : Nat
  jsonMessage : Option String
deriving DecidableEq, Repr

/-- Outcome of `shutdownSession`: a normal return (with the
`console.warn` message, when one was printed) or a raised
`ServerConnection.ResponseError` (with its custom message, when one was
supplied). -/
inductive ShutdownOutcome where
  | success (warning : Option String)
  | responseError (message : Option String)
deriving DecidableEq, Repr

/-- Function `shutdownSession(id, settings)` from `restapi.ts`, as a function of
the DELETE response: 404 warns (`data.message ||` a default naming the
id, with the stray doubled quote of the source template) and returns
normally; 410 raises the distinguished kernel-deleted error; any other
non-204 status raises a plain response error; 204 returns normally. -/
def shutdownSession (id : String) (response : HttpResponse) : ShutdownOutcome :=
  if response.status == 404 then
    .success (some (jsStringOr response.jsonMessage
      ("The session \"" ++ id ++ "\"\" does not exist on the server")))
  else if response.status == 410 then
    .responseError (some "The kernel was deleted but the session was not")
  else if response.status != 204 then
    .responseError none
  else
    .success none

/-- Projection of an event trace to its `propertyChanged` payloads, in
emission order. -/
def propEvents (evs : List Ev) : List PropField :=
  evs.filterMap fun e =>
    match e with
    | .propertyChanged fld => some fld
    | _ => none

/-- Projection of an event trace to its `kernelChanged` payloads
(old value, new value), in emission order. -/
def kernelEvents (evs : List Ev) : List (Option KernelHandle × Option KernelHandle) :=
  evs.filterMap fun e =>
    match e with
    | .kernelChanged o n => some (o, n)
    | _ => none

/-- A concrete kernel connector used by the witness examples. -/
def demoConnector : KernelModel → KernelHandle :=
  fun m => ⟨m.id, m.name, false⟩

/-- Per-connection postcondition of one reconciliation pass, relating a
tracked connection to its state after `updateRunningSessions`: a
connection whose id matches a record of the list goes through `update`
with the first such record (and is not disposed by the pass); a
connection without a matching record is disposed unless it already was. -/
def reconciled (sessions : List IModel) (c o : SessionConnection) : Prop :=
  match sessions.find? (fun sId => c.id == sId.id) with
  | some m => (∃ evs, c.update m = .ok o evs) ∧ o.isDisposed = c.isDisposed
  | none =>
    if c.isDisposed then o = c
    else (∃ evs, c.dispose = .ok o evs) ∧ o.isDisposed = true

/-- A concrete connection used by the witness examples: id "a", owning
kernel handle "k1" and a connector, idle. -/
def sessionA : SessionConnection :=
  ⟨"a", "p", "n", "t", some ⟨"k1", "py", false⟩, false, false, some demoConnector⟩

/-- A second concrete connection (id "b") for the witness examples. -/
def sessionB : SessionConnection :=
  ⟨"b", "q", "o", "u", some ⟨"k2", "py", false⟩, false, false, some demoConnector⟩

/-- A server record matching `sessionA` by id, renaming "n" to "n2" and
moving "p" to "p2", same kernel "k1". -/
def recordA : IModel := ⟨"a", "p2", "t", "n2", some ⟨"k1", "py"⟩⟩

/-- A server record matching `sessionA` by id whose kernel identity
differs ("k9" instead of "k1"). -/
def recordB : IModel := ⟨"a", "p", "t", "n", some ⟨"k9", "py"⟩⟩

/-- Reading `model` on a connection owning a kernel yields the snapshot
record built from the current fields. -/
theorem model_of_kernel_some (s : SessionConnection) (k : KernelHandle)
    (hk : s.kernel = some k) :
    s.model = some ⟨s.id, s.path, s.type, s.name, some ⟨k.id, k.name⟩⟩ := by
  simp [SessionConnection.model, hk]

/-- C3: calling `update` while `updating` is true (a PATCH is in flight)
is a silent no-op — the state comes back unchanged (path, type, name and
kernel included) and the event trace is empty. -/
theorem c3_update_noop_during_patch (s : SessionConnection) (m : IModel)
    (h : s.updating = true) : s.update m = .ok s [] := by
  simp [SessionConnection.update, h]

/-- Witness for C3 at a concrete in-flight connection and record. -/
theorem c3_witness :
    SessionConnection.update
        ⟨"s1", "p", "n", "t", some ⟨"k1", "py", false⟩, false, true, none⟩
        ⟨"s1", "q", "v", "u", none⟩ =
      .ok ⟨"s1", "p", "n", "t", some ⟨"k1", "py", false⟩, false, true, none⟩ [] :=
  c3_update_noop_during_patch _ _ rfl

/-- C1: `_patch` never feeds the PATCH response into `update`. On a
non-disposed connection with path "old", a `setPath("new")` whose PATCH
round trip succeeds with a record carrying path "new" resolves with void,
yet the connection state is bitwise the pre-call state (path still "old",
no events, `updating` back to false): the returned record was dropped. -/
theorem c1_patch_result_not_applied :
    SessionConnection.setPath
        ⟨"s1", "old", "n", "t", some ⟨"k1", "py", false⟩, false, false, none⟩
        "new"
        (.ok ⟨"s1", "new", "t", "n", some ⟨"k1", "py"⟩⟩) =
      (.ok (), ⟨"s1", "old", "n", "t", some ⟨"k1", "py", false⟩, false, false, none⟩) :=
  rfl

/-- C2: `changeKernel` disposes the owned handle eagerly — even a failing
PATCH leaves it disposed (second conjunct) — but on success it returns
`this.kernel`, which still aims at the old, now-disposed handle "k1"
rather than a handle rebuilt from the response record (kernel "k2"),
because the response never flows through `update`. -/
theorem c2_changeKernel_returns_disposed_old_handle :
    (SessionConnection.changeKernel
        ⟨"s1", "p", "n", "t", some ⟨"k1", "py", false⟩, false, false, none⟩
        ⟨some "py", none⟩
        (.ok ⟨"s1", "p", "t", "n", some ⟨"k2", "py"⟩⟩) =
      (.ok (some ⟨"k1", "py", true⟩),
        ⟨"s1", "p", "n", "t", some ⟨"k1", "py", true⟩, false, false, none⟩)) ∧
    (SessionConnection.changeKernel
        ⟨"s1", "p", "n", "t", some ⟨"k1", "py", false⟩, false, false, none⟩
        ⟨some "py", none⟩
        (.error "network failure") =
      (.error "network failure",
        ⟨"s1", "p", "n", "t", some ⟨"k1", "py", true⟩, false, false, none⟩)) :=
  ⟨rfl, rfl⟩

/-- C8: the DELETE handler treats 404 as success with a warning, turns
410 into the distinguished kernel-deleted hard error, raises a plain
response error on any other non-204 status, and returns normally on 204. -/
theorem c8_shutdownSession_status_handling (id : String) (r : HttpResponse) :
    (r.status = 404 → ∃ w, shutdownSession id r = .success (some w)) ∧
    (r.status = 410 →
      shutdownSession id r =
        .responseError (some "The kernel was deleted but the session was not")) ∧
    (r.status ≠ 404 → r.status ≠ 410 → r.status ≠ 204 →
      shutdownSession id r = .responseError none) ∧
    (r.status = 204 → shutdownSession id r = .success none) := by
  refine ⟨fun h => ?_, fun h => ?_, fun h1 h2 h3 => ?_, fun h => ?_⟩
  · exact ⟨jsStringOr r.jsonMessage
      ("The session \"" ++ id ++ "\"\" does not exist on the server"),
      by simp [shutdownSession, h]⟩
  · simp [shutdownSession, h]
  · simp [shutdownSession, h1, h2, h3]
  · simp [shutdownSession, h]

/-- Witness for C8 at the four status classes. -/
theorem c8_witness :
    (∃ w, shutdownSession "abc" ⟨404, none⟩ = .success (some w)) ∧
    (shutdownSession "abc" ⟨410, none⟩ =
      .responseError (some "The kernel was deleted but the session was not")) ∧
    (shutdownSession "abc" ⟨500, none⟩ = .responseError none) ∧
    (shutdownSession "abc" ⟨204, none⟩ = .success none) :=
  ⟨(c8_shutdownSession_status_handling "abc" ⟨404, none⟩).1 rfl,
    (c8_shutdownSession_status_handling "abc" ⟨410, none⟩).2.1 rfl,
    (c8_shutdownSession_status_handling "abc" ⟨500, none⟩).2.2.1
      (by decide) (by decide) (by decide),
    (c8_shutdownSession_status_handling "abc" ⟨204, none⟩).2.2.2 rfl⟩

/-- Counterexample to C7: an options value whose path is the empty
string — not a non-empty string — does not make `startNew` fail with the
precondition error; the guard only tests for `undefined`, so the call
proceeds to the transport and wraps the returned record. -/
theorem c7_counterexample :
    startNew ⟨some "", none, none, none⟩ (.ok ⟨"s1", "p", "nb", "n", none⟩) =
      .ok ⟨"s1", "p", "n", "nb", none, false, false, none⟩ :=
  rfl

/-- C7 (amended): `startNew` fails with the precondition error exactly
when `options.path` is undefined — and then it does so for every
transport outcome, i.e. before any network call; any defined path, the
empty string included, delegates creation to the transport and wraps the
returned record through the `createSession` construction path (shown here
for null-kernel records, the only ones that path can wrap — see C10). -/
theorem c7_startNew_path_precondition (opts : IOptions) (m : IModel) :
    (opts.path = none →
      ∀ r : Except String IModel, startNew opts r = .error "Must specify a path") ∧
    (opts.path ≠ none → startNew opts (.ok m) = createSession m) ∧
    (opts.path ≠ none → m.kernel = none →
      ∃ c, startNew opts (.ok m) = .ok c ∧ c.id = m.id ∧ c.path = m.path ∧
        c.name = m.name ∧ c.type = jsStringOr (some m.type) "file" ∧
        c.kernel = none ∧ c.isDisposed = false) := by
  refine ⟨fun h r => ?_, fun h => ?_, fun h hk => ?_⟩
  · simp [startNew, h]
  · simp [startNew, h]
  · refine ⟨⟨m.id, m.path, m.name, jsStringOr (some m.type) "file",
      none, false, false, none⟩, ?_, rfl, rfl, rfl, rfl, rfl, rfl⟩
    simp [startNew, h, createSession, SessionConnection.construct,
      SessionConnection.setupKernel, hk]

/-- Witness for C7 at concrete inputs: an undefined path rejects without
consulting the transport; the defined path "a" delegates and wraps. -/
theorem c7_witness :
    (startNew ⟨none, none, none, none⟩ (.error "no network") =
      .error "Must specify a path") ∧
    (startNew ⟨some "a", none, none, none⟩ (.ok ⟨"s2", "q", "nb", "m", none⟩) =
      createSession ⟨"s2", "q", "nb", "m", none⟩) ∧
    (∃ c, startNew ⟨some "a", none, none, none⟩ (.ok ⟨"s2", "q", "nb", "m", none⟩) =
      .ok c ∧ c.id = "s2" ∧ c.path = "q" ∧ c.name = "m" ∧
      c.type = jsStringOr (some "nb") "file" ∧ c.kernel = none ∧ c.isDisposed = false) :=
  ⟨(c7_startNew_path_precondition ⟨none, none, none, none⟩
      ⟨"s2", "q", "nb", "m", none⟩).1 rfl (.error "no network"),
    (c7_startNew_path_precondition ⟨some "a", none, none, none⟩
      ⟨"s2", "q", "nb", "m", none⟩).2.1 (by simp),
    (c7_startNew_path_precondition ⟨some "a", none, none, none⟩
      ⟨"s2", "q", "nb", "m", none⟩).2.2 (by simp) rfl⟩

/-- C9: every operation that reads the kernel handle without a null check
fails on a null-kernel connection — `model` produces no record (instead
of one with a null kernel field), `clone` throws, an applied `update`
throws before mutating anything, and `dispose` throws after setting the
flag and emitting the disposed signal but before completing (the kernel
teardown and `Signal.clearData` are never reached). -/
theorem c9_null_kernel_operations_fail (s : SessionConnection)
    (h : s.kernel = none) :
    s.model = none ∧
    s.clone = .error "TypeError: this.kernel is null" ∧
    (∀ m : IModel, s.updating = false →
      s.update m = .thrown "TypeError: this.kernel is null" s []) ∧
    (s.isDisposed = false →
      s.dispose = .thrown "TypeError: this.kernel is null"
        { s with isDisposed := true } [Ev.disposedSig]) := by
  refine ⟨?_, ?_, fun m hu => ?_, fun hd => ?_⟩
  · simp [SessionConnection.model, h]
  · simp [SessionConnection.clone, h]
  · simp [SessionConnection.update, hu, SessionConnection.model, h]
  · simp [SessionConnection.dispose, hd, h]

/-- Witness for C9 at a concrete null-kernel connection. -/
theorem c9_witness :
    SessionConnection.model ⟨"s1", "p", "n", "t", none, false, false, none⟩ = none ∧
    SessionConnection.clone ⟨"s1", "p", "n", "t", none, false, false, none⟩ =
      .error "TypeError: this.kernel is null" ∧
    SessionConnection.update ⟨"s1", "p", "n", "t", none, false, false, none⟩
      ⟨"s1", "q", "v", "u", none⟩ =
      .thrown "TypeError: this.kernel is null"
        ⟨"s1", "p", "n", "t", none, false, false, none⟩ [] ∧
    SessionConnection.dispose ⟨"s1", "p", "n", "t", none, false, false, none⟩ =
      .thrown "TypeError: this.kernel is null"
        ⟨"s1", "p", "n", "t", none, true, false, none⟩ [Ev.disposedSig] := by
  have h := c9_null_kernel_operations_fail
    ⟨"s1", "p", "n", "t", none, false, false, none⟩ rfl
  exact ⟨h.1, h.2.1, h.2.2.1 ⟨"s1", "q", "v", "u", none⟩ rfl, h.2.2.2 rfl⟩

/-- C10: both registry creation paths (`connectTo` on a cache miss and
`startNew` past its path guard) go through `createSession`, whose options
object omits the kernel connector; a record with a non-null kernel then
sends `setupKernel` into the undefined connector and construction throws,
while a null-kernel record yields a usable connection (null kernel, no
connector) carrying the record id. -/
theorem c10_registry_creation_requires_null_kernel (m : IModel)
    (running : List SessionConnection) (opts : IOptions) :
    (running.find? (fun c => c.id == m.id) = none →
      connectTo m running = createSession m) ∧
    (opts.path ≠ none → startNew opts (.ok m) = createSession m) ∧
    (∀ km, m.kernel = some km →
      createSession m = .error "TypeError: this._connectToKernel is not a function") ∧
    (m.kernel = none → ∃ c, createSession m = .ok c ∧ c.kernel = none ∧
      c.connectToKernel = none ∧ c.id = m.id) := by
  refine ⟨fun h => ?_, fun h => ?_, fun km hk => ?_, fun hk => ?_⟩
  · simp [connectTo, h]
  · simp [startNew, h]
  · simp [createSession, SessionConnection.construct, SessionConnection.setupKernel, hk]
  · exact ⟨⟨m.id, m.path, m.name, jsStringOr (some m.type) "file",
      none, false, false, none⟩,
      by simp [createSession, SessionConnection.construct,
        SessionConnection.setupKernel, hk], rfl, rfl, rfl⟩

/-- Witness for C10: a record with kernel "k1" fails to construct, the
same record with a null kernel constructs, and both delegation equations
hold at concrete inputs. -/
theorem c10_witness :
    (connectTo ⟨"s3", "p", "nb", "n", some ⟨"k1", "py"⟩⟩ [] =
      createSession ⟨"s3", "p", "nb", "n", some ⟨"k1", "py"⟩⟩) ∧
    (startNew ⟨some "p", none, none, none⟩ (.ok ⟨"s3", "p", "nb", "n", some ⟨"k1", "py"⟩⟩) =
      createSession ⟨"s3", "p", "nb", "n", some ⟨"k1", "py"⟩⟩) ∧
    (createSession ⟨"s3", "p", "nb", "n", some ⟨"k1", "py"⟩⟩ =
      .error "TypeError: this._connectToKernel is not a function") ∧
    (∃ c, createSession ⟨"s3", "p", "nb", "n", none⟩ = .ok c ∧ c.kernel = none ∧
      c.connectToKernel = none ∧ c.id = "s3") :=
  ⟨(c10_registry_creation_requires_null_kernel ⟨"s3", "p", "nb", "n", some ⟨"k1", "py"⟩⟩
      [] ⟨some "p", none, none, none⟩).1 rfl,
    (c10_registry_creation_requires_null_kernel ⟨"s3", "p", "nb", "n", some ⟨"k1", "py"⟩⟩
      [] ⟨some "p", none, none, none⟩).2.1 (by simp),
    (c10_registry_creation_requires_null_kernel ⟨"s3", "p", "nb", "n", some ⟨"k1", "py"⟩⟩
      [] ⟨some "p", none, none, none⟩).2.2.1 ⟨"k1", "py"⟩ rfl,
    (c10_registry_creation_requires_null_kernel ⟨"s3", "p", "nb", "n", none⟩
      [] ⟨some "p", none, none, none⟩).2.2.2 rfl⟩

/-- Full characterisation of an applied `update` on a connection that owns
a kernel handle and a connector: fields are overwritten, and the kernel is
swapped (old handle disposed in place, `kernelChanged` emitted first)
exactly when the identity test fires. -/
theorem update_applied (s : SessionConnection) (k : KernelHandle)
    (f : KernelModel → KernelHandle) (m : IModel)
    (hu : s.updating = false) (hk : s.kernel = some k)
    (hc : s.connectToKernel = some f) :
    s.update m =
      if kernelIdChanged (some k) m.kernel then
        .ok { s with path := m.path, name := m.name, type := m.type, kernel := Option.map f m.kernel }
          (Ev.kernelChanged (some (markDisposed k)) (Option.map f m.kernel) ::
            handleModelChange ⟨s.id, s.path, s.type, s.name, some ⟨k.id, k.name⟩⟩
              { s with path := m.path, name := m.name, type := m.type, kernel := Option.map f m.kernel })
      else
        .ok { s with path := m.path, name := m.name, type := m.type }
          (handleModelChange ⟨s.id, s.path, s.type, s.name, some ⟨k.id, k.name⟩⟩
            { s with path := m.path, name := m.name, type := m.type }) := by
  cases hm : m.kernel with
  | none =>
    simp [SessionConnection.update, hu, SessionConnection.model, hk,
      kernelIdChanged, SessionConnection.setupKernel, hm, markDisposed]
  | some km =>
    rcases eq_or_ne k.id km.id with hid | hid
    · simp [SessionConnection.update, hu, SessionConnection.model, hk,
        kernelIdChanged, SessionConnection.setupKernel, hm, hc, hid, markDisposed]
    · simp [SessionConnection.update, hu, SessionConnection.model, hk,
        kernelIdChanged, SessionConnection.setupKernel, hm, hc, hid, markDisposed]

/-- The property-changed payloads of `_handleModelChange` are exactly the
fields whose value differs, in order name, type, path. -/
theorem propEvents_handleModelChange (om : IModel) (s : SessionConnection) :
    propEvents (handleModelChange om s) =
      ((if om.name ≠ s.name then [PropField.name] else []) ++
        (if om.type ≠ s.type then [PropField.type] else []) ++
          (if om.path ≠ s.path then [PropField.path] else [])) := by
  simp only [handleModelChange, propEvents, List.filterMap_append, bne_iff_ne,
    apply_ite (List.filterMap _), List.filterMap_cons, List.filterMap_nil]

/-- Helper fact: `_handleModelChange` emits no kernel-changed events. -/
theorem kernelEvents_handleModelChange (om : IModel) (s : SessionConnection) :
    kernelEvents (handleModelChange om s) = [] := by
  simp only [handleModelChange, kernelEvents, List.filterMap_append,
    apply_ite (List.filterMap _), List.filterMap_cons, List.filterMap_nil]
  split_ifs <;> simp

/-- Dropping a leading kernel-changed event leaves the property-changed
payloads unchanged. -/
theorem propEvents_cons_kernelChanged (o n : Option KernelHandle) (l : List Ev) :
    propEvents (Ev.kernelChanged o n :: l) = propEvents l := by
  simp [propEvents]

/-- A leading kernel-changed event contributes its payload to the
kernel-changed projection. -/
theorem kernelEvents_cons_kernelChanged (o n : Option KernelHandle) (l : List Ev) :
    kernelEvents (Ev.kernelChanged o n :: l) = (o, n) :: kernelEvents l := by
  simp [kernelEvents]

/-- C5: an applied `update` on a connection owning a kernel handle (so
the pre-update `model` snapshot succeeds) and a connector (so a kernel
swap cannot throw) overwrites path, type and name unconditionally from
the record, and its property-changed emissions are exactly the fields
whose value changed — in the order name, then type, then path, with zero
events for value-equal fields. -/
theorem c5_update_overwrites_and_emits (s : SessionConnection) (k : KernelHandle)
    (f : KernelModel → KernelHandle) (m : IModel)
    (hu : s.updating = false) (hk : s.kernel = some k)
    (hc : s.connectToKernel = some f) :
    ∃ s2 evs, s.update m = .ok s2 evs ∧
      s2.path = m.path ∧ s2.type = m.type ∧ s2.name = m.name ∧
      propEvents evs =
        ((if s.name ≠ m.name then [PropField.name] else []) ++
          (if s.type ≠ m.type then [PropField.type] else []) ++
            (if s.path ≠ m.path then [PropField.path] else [])) := by
  rw [update_applied s k f m hu hk hc]
  by_cases hkc : kernelIdChanged (some k) m.kernel = true
  · rw [if_pos hkc]
    refine ⟨_, _, rfl, rfl, rfl, rfl, ?_⟩
    rw [propEvents_cons_kernelChanged, propEvents_handleModelChange]
  · rw [if_neg hkc]
    refine ⟨_, _, rfl, rfl, rfl, rfl, ?_⟩
    rw [propEvents_handleModelChange]

/-- Witness for C5: applying `recordA` (path "p" to "p2", name "n" to
"n2", type unchanged, same kernel) to `sessionA`. -/
theorem c5_witness :
    (sessionA.updating = false ∧ sessionA.kernel = some ⟨"k1", "py", false⟩ ∧
      sessionA.connectToKernel = some demoConnector) ∧
    ∃ s2 evs, sessionA.update recordA = .ok s2 evs ∧
      s2.path = recordA.path ∧ s2.type = recordA.type ∧ s2.name = recordA.name ∧
      propEvents evs =
        ((if sessionA.name ≠ recordA.name then [PropField.name] else []) ++
          (if sessionA.type ≠ recordA.type then [PropField.type] else []) ++
            (if sessionA.path ≠ recordA.path then [PropField.path] else [])) :=
  ⟨⟨rfl, rfl, rfl⟩,
    c5_update_overwrites_and_emits sessionA ⟨"k1", "py", false⟩ demoConnector recordA
      rfl rfl rfl⟩

/-- C6: an applied `update` on a connection owning kernel handle `k` (and
a connector) emits exactly one kernel-changed event precisely when the
kernel identity test of the source fires (new kernel null, or non-null
with an id differing from `k.id`); the event carries the old handle —
disposed in place just before emission — and the newly established
handle, and the kernel field ends at that new handle. When the identity
is unchanged, zero kernel-changed events are emitted and the kernel field
still holds the identical, undisposed handle. -/
theorem c6_update_kernel_changed_events (s : SessionConnection) (k : KernelHandle)
    (f : KernelModel → KernelHandle) (m : IModel)
    (hu : s.updating = false) (hk : s.kernel = some k)
    (hc : s.connectToKernel = some f) :
    ∃ s2 evs, s.update m = .ok s2 evs ∧
      (kernelIdChanged (some k) m.kernel = true →
        kernelEvents evs = [(some (markDisposed k), Option.map f m.kernel)] ∧
        s2.kernel = Option.map f m.kernel) ∧
      (kernelIdChanged (some k) m.kernel = false →
        kernelEvents evs = [] ∧ s2.kernel = some k) := by
  rw [update_applied s k f m hu hk hc]
  by_cases hkc : kernelIdChanged (some k) m.kernel = true
  · rw [if_pos hkc]
    refine ⟨_, _, rfl, fun _ => ⟨?_, rfl⟩, fun hf => by rw [hf] at hkc; cases hkc⟩
    rw [kernelEvents_cons_kernelChanged, kernelEvents_handleModelChange]
  · rw [if_neg hkc]
    exact ⟨_, _, rfl, fun ht => absurd ht hkc,
      fun _ => ⟨kernelEvents_handleModelChange _ _, hk⟩⟩

/-- Witness for C6: applying `recordB` (kernel "k9" replacing "k1") and
`recordA` (kernel "k1" unchanged) to `sessionA`. -/
theorem c6_witness :
    ((sessionA.updating = false ∧ sessionA.kernel = some ⟨"k1", "py", false⟩ ∧
      sessionA.connectToKernel = some demoConnector) ∧
    ∃ s2 evs, sessionA.update recordB = .ok s2 evs ∧
      (kernelIdChanged (some ⟨"k1", "py", false⟩) recordB.kernel = true →
        kernelEvents evs =
          [(some (markDisposed ⟨"k1", "py", false⟩), Option.map demoConnector recordB.kernel)] ∧
        s2.kernel = Option.map demoConnector recordB.kernel) ∧
      (kernelIdChanged (some ⟨"k1", "py", false⟩) recordB.kernel = false →
        kernelEvents evs = [] ∧ s2.kernel = some ⟨"k1", "py", false⟩)) ∧
    ∃ s2 evs, sessionA.update recordA = .ok s2 evs ∧
      (kernelIdChanged (some ⟨"k1", "py", false⟩) recordA.kernel = true →
        kernelEvents evs =
          [(some (markDisposed ⟨"k1", "py", false⟩), Option.map demoConnector recordA.kernel)] ∧
        s2.kernel = Option.map demoConnector recordA.kernel) ∧
      (kernelIdChanged (some ⟨"k1", "py", false⟩) recordA.kernel = false →
        kernelEvents evs = [] ∧ s2.kernel = some ⟨"k1", "py", false⟩) :=
  ⟨⟨⟨rfl, rfl, rfl⟩,
      c6_update_kernel_changed_events sessionA ⟨"k1", "py", false⟩ demoConnector recordB
        rfl rfl rfl⟩,
    c6_update_kernel_changed_events sessionA ⟨"k1", "py", false⟩ demoConnector recordA
      rfl rfl rfl⟩

/-- On a connection owning a kernel handle and a connector, `update`
never throws, and it never flips the disposed flag. -/
theorem update_ok_general (c : SessionConnection) (m : IModel)
    (k : KernelHandle) (f : KernelModel → KernelHandle)
    (hk : c.kernel = some k) (hc : c.connectToKernel = some f) :
    ∃ o evs, c.update m = .ok o evs ∧ o.isDisposed = c.isDisposed := by
  by_cases hu : c.updating = true
  · exact ⟨c, [], by simp [SessionConnection.update, hu], rfl⟩
  · have hu' : c.updating = false := by
      revert hu; cases c.updating <;> simp
    rw [update_applied c k f m hu' hk hc]
    by_cases hkc : kernelIdChanged (some k) m.kernel = true
    · rw [if_pos hkc]
      exact ⟨_, _, rfl, rfl⟩
    · rw [if_neg hkc]
      exact ⟨_, _, rfl, rfl⟩

/-- Calling `dispose` on a not-yet-disposed connection owning a kernel handle
completes: flag set, disposed signal emitted, kernel handle disposed. -/
theorem dispose_ok (c : SessionConnection) (k : KernelHandle)
    (hk : c.kernel = some k) (hd : c.isDisposed = false) :
    c.dispose =
      .ok { c with isDisposed := true, kernel := some (markDisposed k) }
        [Ev.disposedSig] := by
  simp [SessionConnection.dispose, hd, hk]

/-- One reconciliation iteration on a crash-free connection returns
normally and establishes the per-connection postcondition. -/
theorem reconcileOne_ok (sessions : List IModel) (c : SessionConnection)
    (k : KernelHandle) (f : KernelModel → KernelHandle)
    (hk : c.kernel = some k) (hc : c.connectToKernel = some f) :
    ∃ o evs, reconcileOne sessions c = .ok o evs ∧ reconciled sessions c o := by
  cases hf : sessions.find? (fun sId => c.id == sId.id) with
  | some m =>
    obtain ⟨o, evs, ho, hd⟩ := update_ok_general c m k f hk hc
    refine ⟨o, evs, ?_, ?_⟩
    · simp [reconcileOne, hf, ho]
    · simp only [reconciled, hf]
      exact ⟨⟨evs, ho⟩, hd⟩
  | none =>
    by_cases hd : c.isDisposed = true
    · refine ⟨c, [], ?_, ?_⟩
      · simp [reconcileOne, hf, hd]
      · simp [reconciled, hf, hd]
    · have hd' : c.isDisposed = false := by
        revert hd; cases c.isDisposed <;> simp
      refine ⟨{ c with isDisposed := true, kernel := some (markDisposed k) },
        [Ev.disposedSig], ?_, ?_⟩
      · simp [reconcileOne, hf, hd', dispose_ok c k hk hd']
      · simp only [reconciled, hf, hd', if_false]
        refine ⟨⟨[Ev.disposedSig], dispose_ok c k hk hd'⟩, ?_⟩
        simp

/-- C4: a reconciliation pass over tracked connections that cannot throw
(each owns a kernel handle and a connector) returns normally and relates
the input snapshot to the output elementwise: same length, the i-th
output arises from the i-th input alone (no entry skipped or visited
twice), a connection with a matching record goes through `update` with
the first such record and keeps its disposed flag (matched connections
are not disposed), and a connection without a matching record is disposed
unless it already was. -/
theorem c4_updateRunningSessions_reconciles (sessions : List IModel)
    (running : List SessionConnection)
    (H : ∀ c ∈ running, (∃ k, c.kernel = some k) ∧
      ∃ f, c.connectToKernel = some f) :
    ∃ out, updateRunningSessions sessions running = .ok out ∧
      out.length = running.length ∧
      List.Forall₂ (reconciled sessions) running out := by
  induction running with
  | nil => exact ⟨[], rfl, rfl, List.Forall₂.nil⟩
  | cons c rest ih =>
    obtain ⟨⟨k, hk⟩, ⟨f, hc⟩⟩ := H c (List.mem_cons_self _ _)
    obtain ⟨o, evs, ho, hr⟩ := reconcileOne_ok sessions c k f hk hc
    obtain ⟨out, hout, hlen, hfa⟩ := ih fun x hx => H x (List.mem_cons_of_mem _ hx)
    refine ⟨o :: out, ?_, ?_, List.Forall₂.cons hr hfa⟩
    · simp [updateRunningSessions, ho, hout]
    · simp [hlen]

/-- Witness for C4: records `[recordA]` reconciled against the snapshot
`[sessionA, sessionB]` — sessionA has the matching record, sessionB has
none and is to be disposed. -/
theorem c4_witness :
    (∀ c ∈ [sessionA, sessionB], (∃ k, c.kernel = some k) ∧
      ∃ f, c.connectToKernel = some f) ∧
    ∃ out, updateRunningSessions [recordA] [sessionA, sessionB] = .ok out ∧
      out.length = 2 ∧
      List.Forall₂ (reconciled [recordA]) [sessionA, sessionB] out := by
  have H : ∀ c ∈ [sessionA, sessionB], (∃ k, c.kernel = some k) ∧
      ∃ f, c.connectToKernel = some f := by
    intro c hc
    simp only [List.mem_cons, List.not_mem_nil, or_false] at hc
    rcases hc with rfl | rfl
    · exact ⟨⟨_, rfl⟩, ⟨_, rfl⟩⟩
    · exact ⟨⟨_, rfl⟩, ⟨_, rfl⟩⟩
  exact ⟨H, c4_updateRunningSessions_reconciles [recordA] [sessionA, sessionB] H⟩
